import Mathlib

/-!
# triangle3d: a verification development for `examples/triangle3d/src/main.cpp`

The program opens a window, compiles two shaders, uploads one triangle and
then redraws it every frame under `proj * view * model`.

* Scalars are an arbitrary field `α` (exact arithmetic; `float` rounding is
  not modelled, `static_cast<float>` is the identity).
* The `<cmath>` functions that GLM calls are a parameter, `CMath`.
* GLM is a library that `main.cpp` includes; it is not part of the sources.
  The functions `main` uses (`radians`, `perspective`, `translate`, `rotate`,
  `normalize`, the `mat4` products, `value_ptr`) are modelled in namespace
  `glm` by the formulas of the library, column-major as it stores matrices.
* The symbols of `glad.h` and `glfw3.h` are uninterpreted (`Const`).
* The GLFW / GLAD / OpenGL driver is an environment `Env` that fixes the
  outcome of every call whose result `main` inspects; `main` produces the
  list of API calls it makes, the text written to `std::cerr` and its
  return value. The loop is run with a bound on the evaluations of its
  condition; a run that exhausts the bound has no return value yet.
-/

namespace Triangle3d

/-! ## Scalars and vectors -/

/-- The scalar functions of `<cmath>` that GLM calls, and the number pi behind the
constant of `glm::radians`; a parameter of the development. -/
structure CMath (α : Type) where
  cos : α → α
  sin : α → α
  tan : α → α
  sqrt : α → α
  pi : α

namespace glm

/-- Modelled from the spec: `glm::vec3` (GLM is not under src/), a point or
direction in 3D space. -/
structure vec3 (α : Type) where
  x : α
  y : α
  z : α
deriving DecidableEq, Repr

/-- Modelled from the spec: `glm::vec4` (GLM is not under src/), homogeneous
coordinates. -/
structure vec4 (α : Type) where
  x : α
  y : α
  z : α
  w : α
deriving DecidableEq, Repr

/-- Modelled from the spec: `glm::mat4` (GLM is not under src/), a 4x4 matrix,
stored as GLM does by its four columns: `m[i]` is `m.ci`. -/
structure mat4 (α : Type) where
  c0 : vec4 α
  c1 : vec4 α
  c2 : vec4 α
  c3 : vec4 α
deriving DecidableEq, Repr

variable {α : Type} [Field α]

/-- Modelled from the spec: GLM's product `v * s` of a `vec3` by a scalar. -/
def vec3.scale (v : vec3 α) (s : α) : vec3 α := ⟨v.x * s, v.y * s, v.z * s⟩

/-- Modelled from the spec: GLM's product `v * s` of a `vec4` by a scalar. -/
def vec4.scale (v : vec4 α) (s : α) : vec4 α := ⟨v.x * s, v.y * s, v.z * s, v.w * s⟩

/-- Modelled from the spec: GLM's sum `u + v` of two `vec4`. -/
def vec4.add (u v : vec4 α) : vec4 α := ⟨u.x + v.x, u.y + v.y, u.z + v.z, u.w + v.w⟩

/-- Modelled from the spec: the constructor `glm::mat4(s)` (GLM is not under
src/): `s` on the diagonal, zero elsewhere; `glm::mat4(1.0f)` is the identity. -/
def mat4.diag (s : α) : mat4 α :=
  ⟨⟨s, 0, 0, 0⟩, ⟨0, s, 0, 0⟩, ⟨0, 0, s, 0⟩, ⟨0, 0, 0, s⟩⟩

/-- Modelled from the spec: `glm::radians` (GLM is not under src/), degrees to
radians: `degrees * 0.0174532925...`, the constant being `pi / 180`. -/
def radians (M : CMath α) (degrees : α) : α := degrees * (M.pi / 180)

/-- Modelled from the spec: `glm::dot` on `vec3` (GLM is not under src/). -/
def dot (u v : vec3 α) : α := u.x * v.x + u.y * v.y + u.z * v.z

/-- Modelled from the spec: `glm::inversesqrt` (GLM is not under src/). -/
def inversesqrt (M : CMath α) (x : α) : α := 1 / M.sqrt x

/-- Modelled from the spec: `glm::normalize` (GLM is not under src/):
`v * inversesqrt(dot(v, v))`. -/
def normalize (M : CMath α) (v : vec3 α) : vec3 α := v.scale (inversesqrt M (dot v v))

/-- Modelled from the spec: `glm::perspective` (GLM is not under src/), the
spec's perspective matrix of a field of view, an aspect ratio and near / far
planes, as GLM builds it by default (right-handed, depth range -1..1): a zero
matrix with `[0][0] = 1 / (aspect * tan(fovy / 2))`, `[1][1] = 1 / tan(fovy / 2)`,
`[2][2] = -(zFar + zNear) / (zFar - zNear)`, `[2][3] = -1` and
`[3][2] = -(2 * zFar * zNear) / (zFar - zNear)`. -/
def perspective (M : CMath α) (fovy aspect zNear zFar : α) : mat4 α :=
  let tanHalfFovy := M.tan (fovy / 2)
  ⟨⟨1 / (aspect * tanHalfFovy), 0, 0, 0⟩,
   ⟨0, 1 / tanHalfFovy, 0, 0⟩,
   ⟨0, 0, -(zFar + zNear) / (zFar - zNear), -1⟩,
   ⟨0, 0, -(2 * zFar * zNear) / (zFar - zNear), 0⟩⟩

/-- Modelled from the spec: `glm::translate` (GLM is not under src/), the spec's
translation, applied on the right of `m`: the columns of `m` with
`Result[3] = m[0] * v[0] + m[1] * v[1] + m[2] * v[2] + m[3]`. -/
def translate (m : mat4 α) (v : vec3 α) : mat4 α :=
  ⟨m.c0, m.c1, m.c2,
   (((m.c0.scale v.x).add (m.c1.scale v.y)).add (m.c2.scale v.z)).add m.c3⟩

/-- Modelled from the spec: `glm::rotate` (GLM is not under src/), the spec's
rotation by `angle` about the axis `v`, applied on the right of `m`, by GLM's
axis-angle formula on the normalised axis. -/
def rotate (M : CMath α) (m : mat4 α) (angle : α) (v : vec3 α) : mat4 α :=
  let a := angle
  let c := M.cos a
  let s := M.sin a
  let axis := normalize M v
  let temp := axis.scale (1 - c)
  let r00 := c + temp.x * axis.x
  let r01 := temp.x * axis.y + s * axis.z
  let r02 := temp.x * axis.z - s * axis.y
  let r10 := temp.y * axis.x - s * axis.z
  let r11 := c + temp.y * axis.y
  let r12 := temp.y * axis.z + s * axis.x
  let r20 := temp.z * axis.x + s * axis.y
  let r21 := temp.z * axis.y - s * axis.x
  let r22 := c + temp.z * axis.z
  ⟨((m.c0.scale r00).add (m.c1.scale r01)).add (m.c2.scale r02),
   ((m.c0.scale r10).add (m.c1.scale r11)).add (m.c2.scale r12),
   ((m.c0.scale r20).add (m.c1.scale r21)).add (m.c2.scale r22),
   m.c3⟩

/-- Modelled from the spec: the product `mat4 * vec4` of GLM and of GLSL: the
combination of the columns of `m` by the entries of `v`. -/
def mat4.mulVec (m : mat4 α) (v : vec4 α) : vec4 α :=
  (((m.c0.scale v.x).add (m.c1.scale v.y)).add (m.c2.scale v.z)).add (m.c3.scale v.w)

/-- Modelled from the spec: GLM's product `mat4 * mat4`: column `j` of the product
is `m1` applied to column `j` of `m2`. -/
def mat4.mul (m1 m2 : mat4 α) : mat4 α :=
  ⟨m1.mulVec m2.c0, m1.mulVec m2.c1, m1.mulVec m2.c2, m1.mulVec m2.c3⟩

/-- Modelled from the spec: `glm::value_ptr` (GLM is not under src/): the sixteen
scalars in storage order, column after column. -/
def value_ptr (m : mat4 α) : List α :=
  [m.c0.x, m.c0.y, m.c0.z, m.c0.w,
   m.c1.x, m.c1.y, m.c1.z, m.c1.w,
   m.c2.x, m.c2.y, m.c2.z, m.c2.w,
   m.c3.x, m.c3.y, m.c3.z, m.c3.w]

/-- The mathematical matrix a `mat4` stands for: entry (row `i`, column `j`) is `m[j][i]`. -/
def mat4.toMatrix (m : mat4 α) : Matrix (Fin 4) (Fin 4) α :=
  !![m.c0.x, m.c1.x, m.c2.x, m.c3.x;
     m.c0.y, m.c1.y, m.c2.y, m.c3.y;
     m.c0.z, m.c1.z, m.c2.z, m.c3.z;
     m.c0.w, m.c1.w, m.c2.w, m.c3.w]

end glm

/-! ## The matrices of the per-frame update (main.cpp lines 145-148) -/

section Transforms

variable {α : Type} [Field α]

/-- Line 145: `glm::perspective(glm::radians(45.0f), 800.0f/600.0f, 0.1f, 10.0f)`. -/
def proj (M : CMath α) : glm.mat4 α :=
  glm.perspective M (glm.radians M 45) (800 / 600) (1 / 10) 10

/-- Line 146: `glm::translate(glm::mat4(1.0f), glm::vec3(0.0f, 0.0f, -2.0f))`. -/
def view : glm.mat4 α :=
  glm.translate (glm.mat4.diag 1) ⟨0, 0, -2⟩

/-- Line 147:
`glm::rotate(glm::mat4(1.0f), t * glm::radians(30.0f), glm::vec3(0.0f, 1.0f, 0.0f))`. -/
def model (M : CMath α) (t : α) : glm.mat4 α :=
  glm.rotate M (glm.mat4.diag 1) (t * glm.radians M 30) ⟨0, 1, 0⟩

/-- Line 148: `proj * view * model`, which C++ groups as `(proj * view) * model`. -/
def mvp (M : CMath α) (t : α) : glm.mat4 α :=
  ((proj M).mul view).mul (model M t)

end Transforms

/-! ## Header symbols -/

/-- The symbols of `glad.h` and `glfw3.h` that `main.cpp` names. The headers
are not part of the sources; the symbols are kept uninterpreted, as nothing
the program does depends on their numeric values. -/
inductive Const where
  | GL_FALSE
  | GL_TRIANGLES
  | GL_DEPTH_BUFFER_BIT
  | GL_COLOR_BUFFER_BIT
  | GL_DEPTH_TEST
  | GL_FLOAT
  | GL_ARRAY_BUFFER
  | GL_STATIC_DRAW
  | GL_FRAGMENT_SHADER
  | GL_VERTEX_SHADER
  | GL_COMPILE_STATUS
  | GL_LINK_STATUS
  | GL_INFO_LOG_LENGTH
  | GLFW_TRUE
  | GLFW_PRESS
  | GLFW_KEY_ESCAPE
  | GLFW_CONTEXT_VERSION_MAJOR
  | GLFW_CONTEXT_VERSION_MINOR
  | GLFW_OPENGL_PROFILE
  | GLFW_OPENGL_CORE_PROFILE
deriving DecidableEq, Repr

open Const

/-- Modelled from the spec: `sizeof(float)`, which the platform fixes and the
sources do not; 4 bytes, the size of the 32-bit `GL_FLOAT`. -/
def sizeofFloat : Nat := 4

/-! ## API calls, environment and runs -/

/-- One call of `main.cpp` into GLFW, GLAD or OpenGL, with its arguments and, for
a call whose result the program reads, the result. -/
inductive Call (α : Type) where
  | glfwInit (result : Bool)
  | glfwWindowHint (hint : Const) (value : Int ⊕ Const)
  | glfwCreateWindow (width height : Nat) (title : String) (result : Option Nat)
  | glfwTerminate
  | glfwMakeContextCurrent (window : Nat)
  | gladLoadGLLoader (result : Bool)
  | glViewport (x y width height : Nat)
  | glEnable (cap : Const)
  | glGenVertexArrays (n result : Nat)
  | glGenBuffers (n result : Nat)
  | glBindVertexArray (array : Nat)
  | glBindBuffer (target : Const) (buffer : Nat)
  | glBufferData (target : Const) (size : Nat) (data : List α) (usage : Const)
  | glEnableVertexAttribArray (index : Nat)
  | glVertexAttribPointer (index size : Nat) (type normalized : Const) (stride pointer : Nat)
  | glCreateShader (type : Const) (result : Nat)
  | glShaderSource (shader count : Nat) (source : String)
  | glCompileShader (shader : Nat)
  | glGetShaderiv (shader : Nat) (pname : Const)
  | glGetShaderInfoLog (shader bufSize : Nat)
  | glDeleteShader (shader : Nat)
  | glCreateProgram (result : Nat)
  | glAttachShader (program shader : Nat)
  | glLinkProgram (program : Nat)
  | glGetProgramiv (program : Nat) (pname : Const)
  | glGetProgramInfoLog (program bufSize : Nat)
  | glDeleteProgram (program : Nat)
  | glGetUniformLocation (program : Nat) (name : String) (result : Int)
  | glfwGetTime (result : α)
  | glfwWindowShouldClose (window : Nat) (result : Bool)
  | glfwGetKey (window : Nat) (key : Const) (pressed : Bool)
  | glfwSetWindowShouldClose (window : Nat) (value : Const)
  | glClearColor (red green blue alpha : α)
  | glClear (mask : List Const)
  | glUseProgram (program : Nat)
  | glUniformMatrix4fv (location : Int) (count : Nat) (transpose : Const) (value : List α)
  | glDrawArrays (mode : Const) (first count : Nat)
  | glfwSwapBuffers (window : Nat)
  | glfwPollEvents
  | glDeleteBuffers (n buffer : Nat)
  | glDeleteVertexArrays (n array : Nat)
  | glfwDestroyWindow (window : Nat)

/-- What the driver answers when a shader is compiled or a program is linked:
the (nonzero) object name from `glCreateShader` / `glCreateProgram`, the
`GL_COMPILE_STATUS` / `GL_LINK_STATUS`, and the text of the info log. -/
structure Build where
  name : ℕ+
  status : Bool
  infoLog : List Char

/-- What one loop iteration observes: the clock, the Escape key, and whether
`glfwPollEvents` at the end of the iteration delivers a close request. -/
structure FrameInput (α : Type) where
  now : α
  escape : Bool
  closeRequested : Bool

/-- The outcomes of every call whose result `main` reads. -/
structure Env (α : Type) where
  glfwInit : Bool
  window : Option Nat
  gladLoad : Bool
  VAO : Nat
  VBO : Nat
  vs : Build
  fs : Build
  program : Build
  uMVP : Int
  lastTime : α
  frames : Nat → FrameInput α

/-- The observable result of running `main`: the return value (`none` while
the loop has not finished within the given number of condition checks), the
text written to `std::cerr`, and the API calls in order. -/
structure Run (α : Type) where
  exit : Option Int
  cerr : List Char
  calls : List (Call α)

/-! ## Driver semantics of the info-log queries -/

/-- Modelled from the spec: the driver's answer to `GL_INFO_LOG_LENGTH` (OpenGL
is not under src/): the length of the info log including its null terminator,
or 0 when there is no info log. -/
def infoLogLength (infoLog : List Char) : Nat :=
  if infoLog.isEmpty then 0 else infoLog.length + 1

/-- Modelled from the spec: what `glGetShaderInfoLog` / `glGetProgramInfoLog`
(OpenGL is not under src/) leave in a buffer `buf` of `bufSize` characters: at
most `bufSize - 1` characters of the log, then a null terminator; the rest of
the buffer is left as it was. -/
def getInfoLog (infoLog : List Char) (bufSize : Nat) (buf : List Char) : List Char :=
  if bufSize = 0 then buf
  else
    let n := min infoLog.length (bufSize - 1)
    infoLog.take n ++ Char.ofNat 0 :: buf.drop (n + 1)

section Program

variable {α : Type} [Field α]

/-! ## main.cpp -/

/-- Lines 12-29, `compileShader`: the shader name (0 on failure), the text
written to `std::cerr`, and the calls made. -/
def compileShader (type : Const) (source : String) (d : Build) :
    Nat × List Char × List (Call α) :=
  let shader : Nat := d.name
  let pre : List (Call α) :=
    [.glCreateShader type shader, .glShaderSource shader 1 source, .glCompileShader shader,
     .glGetShaderiv shader GL_COMPILE_STATUS]
  let ok := d.status
  if !ok then
    let logLen := infoLogLength d.infoLog
    let log := getInfoLog d.infoLog logLen (List.replicate logLen ' ')
    (0, "Shader compile error: ".toList ++ log ++ "\n".toList,
     pre ++ [.glGetShaderiv shader GL_INFO_LOG_LENGTH,
             .glGetShaderInfoLog shader logLen, .glDeleteShader shader])
  else (shader, [], pre)

/-- Lines 31-48, `linkProgram`: the program name (0 on failure), the text
written to `std::cerr`, and the calls made. -/
def linkProgram (vert frag : Nat) (d : Build) : Nat × List Char × List (Call α) :=
  let prog : Nat := d.name
  let pre : List (Call α) :=
    [.glCreateProgram prog, .glAttachShader prog vert, .glAttachShader prog frag,
     .glLinkProgram prog, .glGetProgramiv prog GL_LINK_STATUS]
  let ok := d.status
  if !ok then
    let logLen := infoLogLength d.infoLog
    let log := getInfoLog d.infoLog logLen (List.replicate logLen ' ')
    (0, "Program link error: ".toList ++ log ++ "\n".toList,
     pre ++ [.glGetProgramiv prog GL_INFO_LOG_LENGTH,
             .glGetProgramInfoLog prog logLen, .glDeleteProgram prog])
  else (prog, [], pre)

/-- Lines 51-60, the vertex shader source. -/
def vertexShaderSrc : String :=
  "\n" ++
  "#version 330 core\n" ++
  "layout(location = 0) in vec3 aPos;\n" ++
  "\n" ++
  "uniform mat4 uMVP;\n" ++
  "\n" ++
  "void main() \x7b\n" ++
  "    gl_Position = uMVP * vec4(aPos, 1.0);\n" ++
  "\x7d\n"

/-- Lines 63-71, the fragment shader source. -/
def fragmentShaderSrc : String :=
  "\n" ++
  "#version 330 core\n" ++
  "out vec4 FragColor;\n" ++
  "\n" ++
  "void main() \x7b\n" ++
  "    // pure red\n" ++
  "    FragColor = vec4(1.0, 0.0, 0.0, 1.0);\n" ++
  "\x7d\n"

/-- What the vertex shader computes: `gl_Position = uMVP * vec4(aPos, 1.0)`. -/
def vertexShaderMain (uMVP : glm.mat4 α) (aPos : glm.vec3 α) : glm.vec4 α :=
  uMVP.mulVec ⟨aPos.x, aPos.y, aPos.z, 1⟩

/-- Lines 101-106, the array `vertices`. -/
def vertices : List α :=
  [ 0,      1 / 2,    0,
    1 / 2,  -(1 / 2), -(1 / 2),
    -(1 / 2), -(1 / 2), 1 / 2 ]

/-- Lines 132-158, one iteration of the loop body, entered with the window's
close flag `shouldClose`: the close flag afterwards and the calls made.
`glfwSetWindowShouldClose(win, GLFW_TRUE)` sets the flag, and `glfwPollEvents`
sets it when a close request arrives; nothing clears it. -/
def frame (M : CMath α) (win program VAO : Nat) (uMVP : Int) (inp : FrameInput α)
    (shouldClose : Bool) : Bool × List (Call α) :=
  let now := inp.now
  let t := now
  let input : List (Call α) :=
    if inp.escape then [.glfwSetWindowShouldClose win GLFW_TRUE] else []
  let shouldClose1 := if inp.escape then true else shouldClose
  let proj := proj M
  let view : glm.mat4 α := view
  let model := model M t
  let mvp := (proj.mul view).mul model
  (shouldClose1 || inp.closeRequested,
   [.glfwGetTime now,
    .glfwGetKey win GLFW_KEY_ESCAPE inp.escape]
   ++ input ++
   [.glClearColor (1 / 10) (1 / 10) (12 / 100) 1,
    .glClear [GL_COLOR_BUFFER_BIT, GL_DEPTH_BUFFER_BIT],
    .glUseProgram program,
    .glUniformMatrix4fv uMVP 1 GL_FALSE (glm.value_ptr mvp),
    .glBindVertexArray VAO,
    .glDrawArrays GL_TRIANGLES 0 3,
    .glBindVertexArray 0,
    .glfwSwapBuffers win,
    .glfwPollEvents])

/-- Lines 131-159, the `while` loop from iteration `i` on, allowed `fuel`
evaluations of its condition: whether the loop has ended, and the calls made. -/
def mainLoop (M : CMath α) (env : Env α) (win program VAO : Nat) (uMVP : Int) :
    Nat → Nat → Bool → Bool × List (Call α)
  | 0, _, _ => (false, [])
  | fuel + 1, i, shouldClose =>
    if shouldClose then (true, [.glfwWindowShouldClose win true])
    else
      let body := frame M win program VAO uMVP (env.frames i) shouldClose
      let rest := mainLoop M env win program VAO uMVP fuel (i + 1) body.1
      (rest.1, .glfwWindowShouldClose win false :: (body.2 ++ rest.2))

/-- Lines 73-168, `main`, with `fuel` bounding the evaluations of the loop
condition. The close flag of the new window is clear when the loop is entered. -/
def main (M : CMath α) (env : Env α) (fuel : Nat) : Run α :=
  if !env.glfwInit then
    ⟨some (-1), "Failed to init GLFW\n".toList, [.glfwInit false]⟩
  else
    let c1 : List (Call α) :=
      [.glfwInit true,
       .glfwWindowHint GLFW_CONTEXT_VERSION_MAJOR (.inl 3),
       .glfwWindowHint GLFW_CONTEXT_VERSION_MINOR (.inl 3),
       .glfwWindowHint GLFW_OPENGL_PROFILE (.inr GLFW_OPENGL_CORE_PROFILE),
       .glfwCreateWindow 800 600 "Hello, Triangle" env.window]
    match env.window with
    | none => ⟨some (-1), "Failed to create GLFW window\n".toList, c1 ++ [.glfwTerminate]⟩
    | some win =>
      let c2 := c1 ++ [.glfwMakeContextCurrent win, .gladLoadGLLoader env.gladLoad]
      if !env.gladLoad then
        ⟨some (-1), "Failed to initialize GLAD\n".toList, c2⟩
      else
        let VAO := env.VAO
        let VBO := env.VBO
        let c3 := c2 ++
          [.glViewport 0 0 800 600,
           .glEnable GL_DEPTH_TEST,
           .glGenVertexArrays 1 VAO,
           .glGenBuffers 1 VBO,
           .glBindVertexArray VAO,
           .glBindBuffer GL_ARRAY_BUFFER VBO,
           .glBufferData GL_ARRAY_BUFFER (9 * sizeofFloat) vertices GL_STATIC_DRAW,
           .glEnableVertexAttribArray 0,
           .glVertexAttribPointer 0 3 GL_FLOAT GL_FALSE (3 * sizeofFloat) 0,
           .glBindVertexArray 0]
        let vs := compileShader GL_VERTEX_SHADER vertexShaderSrc env.vs
        let fs := compileShader GL_FRAGMENT_SHADER fragmentShaderSrc env.fs
        let c4 := c3 ++ vs.2.2 ++ fs.2.2
        if vs.1 = 0 ∨ fs.1 = 0 then
          ⟨some (-1), vs.2.1 ++ fs.2.1, c4⟩
        else
          let program := linkProgram vs.1 fs.1 env.program
          let c5 := c4 ++ program.2.2 ++ [.glDeleteShader vs.1, .glDeleteShader fs.1]
          if program.1 = 0 then
            ⟨some (-1), vs.2.1 ++ fs.2.1 ++ program.2.1, c5⟩
          else
            let uMVP := env.uMVP
            let c6 := c5 ++
              [.glGetUniformLocation program.1 "uMVP" uMVP, .glfwGetTime env.lastTime]
            let loop := mainLoop M env win program.1 VAO uMVP fuel 0 false
            if loop.1 then
              ⟨some 0, vs.2.1 ++ fs.2.1 ++ program.2.1,
               c6 ++ loop.2 ++
                 [.glDeleteProgram program.1,
                  .glDeleteBuffers 1 VBO,
                  .glDeleteVertexArrays 1 VAO,
                  .glfwDestroyWindow win,
                  .glfwTerminate]⟩
            else
              ⟨none, vs.2.1 ++ fs.2.1 ++ program.2.1, c6 ++ loop.2⟩

end Program

section Fetch
variable {α : Type} [Field α]

/-- Vertex `i` of attribute 0 as line 115 lays it out
(`glVertexAttribPointer(0, 3, GL_FLOAT, GL_FALSE, 3 * sizeof(float), 0)`):
three consecutive scalars starting at scalar `3 * i` of the buffer. -/
def attribute0 (data : List α) (i : Nat) : glm.vec3 α :=
  ⟨data.getD (3 * i) 0, data.getD (3 * i + 1) 0, data.getD (3 * i + 2) 0⟩

end Fetch

/-! ## Reference matrices

The textbook right-handed OpenGL matrices, written row by row as
mathematical matrices; the program's matrices are compared with these. -/

section Reference

variable {α : Type} [Field α]

/-- An angle given in degrees, in radians. -/
def degrees (M : CMath α) (d : α) : α := d * M.pi / 180

/-- The OpenGL perspective matrix (as `gluPerspective`): with
`f = cot(fovy / 2)`, rows `(f / aspect, 0, 0, 0)`, `(0, f, 0, 0)`,
`(0, 0, (far + near) / (near - far), 2 far near / (near - far))`, `(0, 0, -1, 0)`. -/
def stdPerspective (M : CMath α) (fovy aspect near far : α) : Matrix (Fin 4) (Fin 4) α :=
  let f := M.cos (fovy / 2) / M.sin (fovy / 2)
  !![f / aspect, 0, 0, 0;
     0, f, 0, 0;
     0, 0, (far + near) / (near - far), 2 * far * near / (near - far);
     0, 0, -1, 0]

/-- The translation matrix by `(x, y, z)`. -/
def stdTranslate (x y z : α) : Matrix (Fin 4) (Fin 4) α :=
  !![1, 0, 0, x;
     0, 1, 0, y;
     0, 0, 1, z;
     0, 0, 0, 1]

/-- The rotation matrix by the angle `θ` about the Y axis. -/
def stdRotateY (M : CMath α) (θ : α) : Matrix (Fin 4) (Fin 4) α :=
  !![M.cos θ, 0, M.sin θ, 0;
     0, 1, 0, 0;
     -M.sin θ, 0, M.cos θ, 0;
     0, 0, 0, 1]

/-! ## Observations on a list of calls -/

/-- Modelled from the spec: the matrix a `mat4` uniform holds after
`glUniformMatrix4fv` (OpenGL is not under src/) with the sixteen scalars `value`: read column by column when `transpose` is `GL_FALSE`,
row by row otherwise. -/
def uniformMatrix (transpose : Const) (value : List α) : Matrix (Fin 4) (Fin 4) α :=
  Matrix.of fun i j =>
    value.getD (if transpose = GL_FALSE then 4 * j.val + i.val else 4 * i.val + j.val) 0

/-- The uniform upload a call performs, if it is one: location, count and matrix. -/
def uniformUpload : Call α → Option (Int × Nat × Matrix (Fin 4) (Fin 4) α)
  | .glUniformMatrix4fv location count transpose value =>
    some (location, count, uniformMatrix transpose value)
  | _ => none

end Reference

/-! ## Observations on runs -/

section Observations

variable {α : Type} [Field α]

/-- Every startup step succeeds: GLFW initialises, the window is created, GLAD
loads the function pointers, both shaders compile and the program links. -/
def startupOk (env : Env α) : Bool :=
  env.glfwInit && env.window.isSome && env.gladLoad && env.vs.status && env.fs.status
    && env.program.status

/-- The iteration observing `inp` leaves the close flag set: Escape is seen
pressed, or `glfwPollEvents` delivers a close request. -/
def closeSignal (inp : FrameInput α) : Bool := inp.escape || inp.closeRequested

/-- The call is an evaluation of the loop condition that lets an iteration begin. -/
def isLoopEntry : Call α → Bool
  | .glfwWindowShouldClose _ false => true
  | _ => false

/-- The call is an evaluation of the loop condition. -/
def isLoopCheck : Call α → Bool
  | .glfwWindowShouldClose _ _ => true
  | _ => false

/-- The arguments of a draw call. -/
def drawCall : Call α → Option (Const × Nat × Nat)
  | .glDrawArrays mode first count => some (mode, first, count)
  | _ => none

/-- The arguments of a buffer upload. -/
def bufferUpload : Call α → Option (Const × Nat × List α × Const)
  | .glBufferData target size data usage => some (target, size, data, usage)
  | _ => none

/-- The five resources whose lifetime `main` manages by hand. -/
inductive Resource where
  | context
  | window (handle : Nat)
  | vertexArray (name : Nat)
  | buffer (name : Nat)
  | program (name : Nat)
deriving DecidableEq, Repr

/-- The resource a call creates, if any. -/
def created : Call α → Option Resource
  | .glfwInit true => some .context
  | .glfwCreateWindow _ _ _ (some w) => some (.window w)
  | .glGenVertexArrays _ a => some (.vertexArray a)
  | .glGenBuffers _ b => some (.buffer b)
  | .glCreateProgram p => some (.program p)
  | _ => none

/-- The resource a call releases, if any. -/
def released : Call α → Option Resource
  | .glfwTerminate => some .context
  | .glfwDestroyWindow w => some (.window w)
  | .glDeleteVertexArrays _ a => some (.vertexArray a)
  | .glDeleteBuffers _ b => some (.buffer b)
  | .glDeleteProgram p => some (.program p)
  | _ => none

/-- The part of the OpenGL state that holds buffer objects: the buffer bound to
`GL_ARRAY_BUFFER` and the data store of each buffer name. -/
structure GLBuffers (α : Type) where
  arrayBuffer : Nat
  store : Nat → Option (List α)

/-- Modelled from the spec: the effect of one call on the buffer objects
(OpenGL is not under src/): `glBindBuffer` sets the binding, `glBufferData`
replaces the data store of the bound buffer, `glDeleteBuffers` removes the
buffer and resets a binding to it. -/
def GLBuffers.step (s : GLBuffers α) : Call α → GLBuffers α
  | .glBindBuffer target buffer =>
    if target = GL_ARRAY_BUFFER then { s with arrayBuffer := buffer } else s
  | .glBufferData target _ data _ =>
    if target = GL_ARRAY_BUFFER then
      { s with store := Function.update s.store s.arrayBuffer (some data) }
    else s
  | .glDeleteBuffers _ buffer =>
    { arrayBuffer := if s.arrayBuffer = buffer then 0 else s.arrayBuffer,
      store := Function.update s.store buffer none }
  | _ => s

/-- The buffer objects after a list of calls, starting with none. -/
def glBuffers (calls : List (Call α)) : GLBuffers α :=
  calls.foldl GLBuffers.step ⟨0, fun _ => none⟩

end Observations

/-! ## Concrete environments -/

/-- A rational stand-in for `<cmath>`, so that runs can be evaluated. -/
def ratMath : CMath ℚ where
  cos x := 1 - x * x / 2
  sin x := x - x * x * x / 6
  tan x := (x - x * x * x / 6) / (1 - x * x / 2)
  sqrt x := (1 + x) / 2
  pi := 355 / 113

/-- Every startup step succeeds; Escape is pressed during the third iteration. -/
def envEscape : Env ℚ where
  glfwInit := true
  window := some 7
  gladLoad := true
  VAO := 1
  VBO := 2
  vs := ⟨1, true, []⟩
  fs := ⟨2, true, []⟩
  program := ⟨3, true, []⟩
  uMVP := 0
  lastTime := 0
  frames i := ⟨i, i == 2, false⟩

/-- The fragment shader does not compile; the driver's log is `bad`. -/
def envCompileFail : Env ℚ :=
  { envEscape with fs := ⟨2, false, ['b', 'a', 'd']⟩ }

/-- The program does not link; the driver's log is `bad`. -/
def envLinkFail : Env ℚ :=
  { envEscape with program := ⟨3, false, ['b', 'a', 'd']⟩ }

/-- GLAD cannot load the function pointers. -/
def envLoaderFail : Env ℚ :=
  { envEscape with gladLoad := false }

section Phases

variable {α : Type} [Field α]

/-- The calls of lines 74-116 in a run that creates the window `win` and loads
the function pointers. -/
def setupCalls (env : Env α) (win : Nat) : List (Call α) :=
  [.glfwInit true,
   .glfwWindowHint GLFW_CONTEXT_VERSION_MAJOR (.inl 3),
   .glfwWindowHint GLFW_CONTEXT_VERSION_MINOR (.inl 3),
   .glfwWindowHint GLFW_OPENGL_PROFILE (.inr GLFW_OPENGL_CORE_PROFILE),
   .glfwCreateWindow 800 600 "Hello, Triangle" (some win),
   .glfwMakeContextCurrent win,
   .gladLoadGLLoader true,
   .glViewport 0 0 800 600,
   .glEnable GL_DEPTH_TEST,
   .glGenVertexArrays 1 env.VAO,
   .glGenBuffers 1 env.VBO,
   .glBindVertexArray env.VAO,
   .glBindBuffer GL_ARRAY_BUFFER env.VBO,
   .glBufferData GL_ARRAY_BUFFER 36 vertices GL_STATIC_DRAW,
   .glEnableVertexAttribArray 0,
   .glVertexAttribPointer 0 3 GL_FLOAT GL_FALSE 12 0,
   .glBindVertexArray 0]

/-- The calls of lines 74-130 in a run where every startup step succeeds, `win`
being the window (lemma `main_of_startupOk`). -/
def startupCalls (env : Env α) (win : Nat) : List (Call α) :=
  setupCalls env win ++
  [.glCreateShader GL_VERTEX_SHADER env.vs.name,
   .glShaderSource env.vs.name 1 vertexShaderSrc,
   .glCompileShader env.vs.name,
   .glGetShaderiv env.vs.name GL_COMPILE_STATUS,
   .glCreateShader GL_FRAGMENT_SHADER env.fs.name,
   .glShaderSource env.fs.name 1 fragmentShaderSrc,
   .glCompileShader env.fs.name,
   .glGetShaderiv env.fs.name GL_COMPILE_STATUS,
   .glCreateProgram env.program.name,
   .glAttachShader env.program.name env.vs.name,
   .glAttachShader env.program.name env.fs.name,
   .glLinkProgram env.program.name,
   .glGetProgramiv env.program.name GL_LINK_STATUS,
   .glDeleteShader env.vs.name,
   .glDeleteShader env.fs.name,
   .glGetUniformLocation env.program.name "uMVP" env.uMVP,
   .glfwGetTime env.lastTime]

/-- The calls of lines 161-166. -/
def shutdownCalls (env : Env α) (win : Nat) : List (Call α) :=
  [.glDeleteProgram env.program.name,
   .glDeleteBuffers 1 env.VBO,
   .glDeleteVertexArrays 1 env.VAO,
   .glfwDestroyWindow win,
   .glfwTerminate]

end Phases

section BufferCalls

variable {α : Type}

/-- The call acts on buffer objects: a bind, an upload or a deletion. -/
def bufferCall : Call α → Bool
  | .glBindBuffer _ _ => true
  | .glBufferData _ _ _ _ => true
  | .glDeleteBuffers _ _ => true
  | _ => false

end BufferCalls

/-! ## Lemmas on the matrices -/

section MatrixLemmas

variable {α : Type}

theorem toMatrix_mul [Field α] (a b : glm.mat4 α) :
    (a.mul b).toMatrix = a.toMatrix * b.toMatrix := by
  ext i j
  rw [Matrix.mul_apply, Fin.sum_univ_four]
  fin_cases i <;> fin_cases j <;> rfl

theorem uniformMatrix_value_ptr [Field α] (m : glm.mat4 α) :
    uniformMatrix GL_FALSE (glm.value_ptr m) = m.toMatrix := by
  ext i j
  fin_cases i <;> fin_cases j <;> rfl

theorem normalize_unitY [Field α] (M : CMath α) (h : M.sqrt 1 = 1) :
    glm.normalize M (⟨0, 1, 0⟩ : glm.vec3 α) = ⟨0, 1, 0⟩ := by
  simp [glm.normalize, glm.inversesqrt, glm.dot, glm.vec3.scale, h]

theorem model_eq [Field α] (M : CMath α) (h : M.sqrt 1 = 1) (t : α) :
    model M t =
      ⟨⟨M.cos (t * glm.radians M 30), 0, -M.sin (t * glm.radians M 30), 0⟩,
       ⟨0, 1, 0, 0⟩,
       ⟨M.sin (t * glm.radians M 30), 0, M.cos (t * glm.radians M 30), 0⟩,
       ⟨0, 0, 0, 1⟩⟩ := by
  simp [model, glm.rotate, normalize_unitY M h, glm.mat4.diag, glm.vec4.add, glm.vec4.scale,
    glm.vec3.scale]

theorem view_eq [Field α] :
    (view : glm.mat4 α)
      = ⟨⟨1, 0, 0, 0⟩, ⟨0, 1, 0, 0⟩, ⟨0, 0, 1, 0⟩, ⟨0, 0, -2, 1⟩⟩ := by
  simp [view, glm.translate, glm.mat4.diag, glm.vec4.add, glm.vec4.scale]

theorem radians_eq_degrees [Field α] (M : CMath α) (d : α) : glm.radians M d = degrees M d := by
  simp only [glm.radians, degrees]; ring

theorem model_toMatrix [Field α] (M : CMath α) (h : M.sqrt 1 = 1) (t : α) :
    (model M t).toMatrix = stdRotateY M (t * degrees M 30) := by
  rw [model_eq M h, radians_eq_degrees]
  ext i j
  fin_cases i <;> fin_cases j <;> rfl

theorem view_toMatrix [Field α] : (view : glm.mat4 α).toMatrix = stdTranslate 0 0 (-2) := by
  rw [view_eq]
  ext i j
  fin_cases i <;> fin_cases j <;> rfl

theorem proj_toMatrix [Field α] (M : CMath α) (h : ∀ x, M.tan x = M.sin x / M.cos x) :
    (proj M).toMatrix = stdPerspective M (degrees M 45) (800 / 600) (1 / 10) 10 := by
  have e1 : (1 : α) / (800 / 600 * (M.sin (degrees M 45 / 2) / M.cos (degrees M 45 / 2)))
      = M.cos (degrees M 45 / 2) / M.sin (degrees M 45 / 2) / (800 / 600) := by
    rw [one_div, mul_inv, mul_comm, inv_div (M.sin _) (M.cos _), ← div_eq_mul_inv]
  have e2 : (1 : α) / (M.sin (degrees M 45 / 2) / M.cos (degrees M 45 / 2))
      = M.cos (degrees M 45 / 2) / M.sin (degrees M 45 / 2) := by
    rw [one_div, inv_div]
  have e3 : -((10 : α) + 1 / 10) / (10 - 1 / 10) = (10 + 1 / 10) / (1 / 10 - 10) := by
    rw [← neg_sub (10 : α) (1 / 10), div_neg, neg_div]
  have e4 : -((2 : α) * 10 * (1 / 10)) / (10 - 1 / 10) = 2 * 10 * (1 / 10) / (1 / 10 - 10) := by
    rw [← neg_sub (10 : α) (1 / 10), div_neg, neg_div]
  simp only [proj, glm.perspective, radians_eq_degrees, h, e1, e2, e3, e4]
  ext i j
  fin_cases i <;> fin_cases j <;> rfl

theorem clip_w_eq [Field α] (M : CMath α) (h : M.sqrt 1 = 1) (t : α) (v : glm.vec3 α) :
    (vertexShaderMain (mvp M t) v).w
      = 2 + v.x * M.sin (t * glm.radians M 30) - v.z * M.cos (t * glm.radians M 30) := by
  rw [mvp, model_eq M h, view_eq]
  simp [vertexShaderMain, proj, glm.perspective, glm.mat4.mul, glm.mat4.mulVec, glm.vec4.add,
    glm.vec4.scale]
  ring

theorem eye_z_eq [Field α] (M : CMath α) (h : M.sqrt 1 = 1) (t : α) (v : glm.vec3 α) :
    (vertexShaderMain ((view : glm.mat4 α).mul (model M t)) v).z
      = v.z * M.cos (t * glm.radians M 30) - v.x * M.sin (t * glm.radians M 30) - 2 := by
  rw [model_eq M h, view_eq]
  simp [vertexShaderMain, glm.mat4.mul, glm.mat4.mulVec, glm.vec4.add, glm.vec4.scale]
  ring

end MatrixLemmas

/-! ## Lemmas on `main` -/

section RunLemmas

variable {α : Type}

theorem frame_flag [Field α] (M : CMath α) (win program VAO : Nat) (uMVP : Int)
    (inp : FrameInput α) :
    (frame M win program VAO uMVP inp false).1 = closeSignal inp := by
  cases h : inp.escape <;> simp [frame, closeSignal, h]

theorem mainLoop_done_iff [Field α] (M : CMath α) (env : Env α) (win program VAO : Nat)
    (uMVP : Int)
    (fuel i : Nat) (shouldClose : Bool) :
    (mainLoop M env win program VAO uMVP fuel i shouldClose).1 = true
      ↔ (shouldClose = true ∧ 1 ≤ fuel)
        ∨ (shouldClose = false
            ∧ ∃ k, k + 2 ≤ fuel ∧ closeSignal (env.frames (i + k)) = true) := by
  induction fuel generalizing i shouldClose with
  | zero => simp [mainLoop]
  | succ n ih =>
    cases shouldClose with
    | true => simp [mainLoop]
    | false =>
      simp only [mainLoop, Bool.false_eq_true, if_false, ih, frame_flag, false_and, false_or,
        true_and]
      constructor
      · rintro (⟨h, hn⟩ | ⟨-, k, hk, hs⟩)
        · exact ⟨0, by omega, by simpa using h⟩
        · exact ⟨k + 1, by omega, by rw [← hs]; congr 2; omega⟩
      · rintro ⟨k, hk, hs⟩
        cases k with
        | zero => left; exact ⟨by simpa using hs, by omega⟩
        | succ k =>
          cases hc : closeSignal (env.frames i) with
          | true => left; exact ⟨rfl, by omega⟩
          | false => right; exact ⟨rfl, k, by omega, by rw [← hs]; congr 2; omega⟩

end RunLemmas

section RunShape

variable {α : Type}

theorem startupOk_iff (env : Env α) :
    startupOk env = true ↔
      env.glfwInit = true ∧ env.window.isSome = true ∧ env.gladLoad = true
        ∧ env.vs.status = true ∧ env.fs.status = true ∧ env.program.status = true := by
  simp [startupOk, and_assoc]

theorem main_of_startupOk [Field α] (M : CMath α) (env : Env α) (fuel win : Nat)
    (hok : startupOk env = true) (hw : env.window = some win) :
    main M env fuel =
      ⟨if (mainLoop M env win env.program.name env.VAO env.uMVP fuel 0 false).1 then some 0
        else none,
       [],
       startupCalls env win
         ++ (mainLoop M env win env.program.name env.VAO env.uMVP fuel 0 false).2
         ++ if (mainLoop M env win env.program.name env.VAO env.uMVP fuel 0 false).1
            then shutdownCalls env win else []⟩ := by
  obtain ⟨h1, -, h3, h4, h5, h6⟩ := (startupOk_iff env).1 hok
  simp only [main, compileShader, linkProgram, h1, hw, h3, h4, h5, h6]
  simp [startupCalls, setupCalls, shutdownCalls, sizeofFloat]
  split <;> simp

end RunShape

section Failures

variable {α : Type}

theorem within_append_left {β : Type} {l a : List β} (b : List β) (h : l <:+: a) :
    l <:+: a ++ b := by
  obtain ⟨s, t, rfl⟩ := h
  exact ⟨s, t ++ b, by simp⟩

theorem within_append_right {β : Type} {l b : List β} (a : List β) (h : l <:+: b) :
    l <:+: a ++ b := by
  obtain ⟨s, t, rfl⟩ := h
  exact ⟨a ++ s, t, by simp⟩

theorem getInfoLog_full (infoLog : List Char) :
    ∃ rest, getInfoLog infoLog (infoLogLength infoLog)
        (List.replicate (infoLogLength infoLog) ' ') = infoLog ++ rest := by
  cases infoLog with
  | nil => exact ⟨_, (List.nil_append _).symm⟩
  | cons c cs =>
    refine ⟨Char.ofNat 0 :: (List.replicate (infoLogLength (c :: cs)) ' ').drop
      (min (c :: cs).length (infoLogLength (c :: cs) - 1) + 1), ?_⟩
    simp [getInfoLog, infoLogLength]

theorem infoLog_within (infoLog pre post : List Char) :
    infoLog <:+: pre ++ getInfoLog infoLog (infoLogLength infoLog)
        (List.replicate (infoLogLength infoLog) ' ') ++ post := by
  obtain ⟨rest, h⟩ := getInfoLog_full infoLog
  rw [h]
  exact ⟨pre, rest ++ post, by simp⟩

theorem compileShader_cerr (type : Const) (source : String) (d : Build) (h : d.status = false) :
    (compileShader type source d : Nat × List Char × List (Call α)).2.1 ≠ []
      ∧ d.infoLog
          <:+: (compileShader type source d : Nat × List Char × List (Call α)).2.1 := by
  simp only [compileShader, h]
  exact ⟨by simp, infoLog_within _ _ _⟩

theorem linkProgram_cerr (vert frag : Nat) (d : Build) (h : d.status = false) :
    (linkProgram vert frag d : Nat × List Char × List (Call α)).2.1 ≠ []
      ∧ d.infoLog <:+: (linkProgram vert frag d : Nat × List Char × List (Call α)).2.1 := by
  simp only [linkProgram, h]
  exact ⟨by simp, infoLog_within _ _ _⟩

theorem compileShader_fst (type : Const) (source : String) (d : Build) :
    (compileShader type source d : Nat × List Char × List (Call α)).1
      = if d.status then (d.name : Nat) else 0 := by
  cases h : d.status <;> simp [compileShader, h]

theorem compileShader_calls (type : Const) (source : String) (d : Build) :
    ∀ c ∈ (compileShader type source d : Nat × List Char × List (Call α)).2.2,
      isLoopCheck c = false ∧ drawCall c = none ∧ released c = none := by
  cases h : d.status <;> simp [compileShader, h, isLoopCheck, drawCall, released]

theorem linkProgram_calls (vert frag : Nat) (d : Build) :
    ∀ c ∈ (linkProgram vert frag d : Nat × List Char × List (Call α)).2.2,
      isLoopCheck c = false ∧ drawCall c = none := by
  cases h : d.status <;> simp [linkProgram, h, isLoopCheck, drawCall]

theorem setupCalls_calls [Field α] (env : Env α) (win : Nat) :
    ∀ c ∈ setupCalls env win, isLoopCheck c = false ∧ drawCall c = none := by
  simp [setupCalls, isLoopCheck, drawCall]

theorem main_of_initFail [Field α] (M : CMath α) (env : Env α) (fuel : Nat)
    (hI : env.glfwInit = false) :
    main M env fuel = ⟨some (-1), "Failed to init GLFW\n".toList, [.glfwInit false]⟩ := by
  simp [main, hI]

theorem main_of_windowFail [Field α] (M : CMath α) (env : Env α) (fuel : Nat)
    (hI : env.glfwInit = true) (hw : env.window = none) :
    main M env fuel =
      ⟨some (-1), "Failed to create GLFW window\n".toList,
       [.glfwInit true,
        .glfwWindowHint GLFW_CONTEXT_VERSION_MAJOR (.inl 3),
        .glfwWindowHint GLFW_CONTEXT_VERSION_MINOR (.inl 3),
        .glfwWindowHint GLFW_OPENGL_PROFILE (.inr GLFW_OPENGL_CORE_PROFILE),
        .glfwCreateWindow 800 600 "Hello, Triangle" none,
        .glfwTerminate]⟩ := by
  simp [main, hI, hw]

theorem main_of_loaderFail [Field α] (M : CMath α) (env : Env α) (fuel win : Nat)
    (hI : env.glfwInit = true) (hw : env.window = some win) (hg : env.gladLoad = false) :
    main M env fuel =
      ⟨some (-1), "Failed to initialize GLAD\n".toList,
       [.glfwInit true,
        .glfwWindowHint GLFW_CONTEXT_VERSION_MAJOR (.inl 3),
        .glfwWindowHint GLFW_CONTEXT_VERSION_MINOR (.inl 3),
        .glfwWindowHint GLFW_OPENGL_PROFILE (.inr GLFW_OPENGL_CORE_PROFILE),
        .glfwCreateWindow 800 600 "Hello, Triangle" (some win),
        .glfwMakeContextCurrent win,
        .gladLoadGLLoader false]⟩ := by
  simp [main, hI, hw, hg]

theorem main_of_compileFail [Field α] (M : CMath α) (env : Env α) (fuel win : Nat)
    (hI : env.glfwInit = true) (hw : env.window = some win) (hg : env.gladLoad = true)
    (h : env.vs.status = false ∨ env.fs.status = false) :
    main M env fuel =
      ⟨some (-1),
       (compileShader GL_VERTEX_SHADER vertexShaderSrc env.vs :
            Nat × List Char × List (Call α)).2.1
         ++ (compileShader GL_FRAGMENT_SHADER fragmentShaderSrc env.fs :
            Nat × List Char × List (Call α)).2.1,
       setupCalls env win
         ++ (compileShader GL_VERTEX_SHADER vertexShaderSrc env.vs).2.2
         ++ (compileShader GL_FRAGMENT_SHADER fragmentShaderSrc env.fs).2.2⟩ := by
  have hz : (compileShader GL_VERTEX_SHADER vertexShaderSrc env.vs :
        Nat × List Char × List (Call α)).1 = 0
      ∨ (compileShader GL_FRAGMENT_SHADER fragmentShaderSrc env.fs :
        Nat × List Char × List (Call α)).1 = 0 := by
    rcases h with h | h
    · left; simp [compileShader_fst, h]
    · right; simp [compileShader_fst, h]
  simp only [main, hI, hw, hg, hz]
  simp [setupCalls, sizeofFloat]

theorem main_of_linkFail [Field α] (M : CMath α) (env : Env α) (fuel win : Nat)
    (hI : env.glfwInit = true) (hw : env.window = some win) (hg : env.gladLoad = true)
    (hv : env.vs.status = true) (hf : env.fs.status = true)
    (hp : env.program.status = false) :
    main M env fuel =
      ⟨some (-1),
       (linkProgram env.vs.name env.fs.name env.program :
            Nat × List Char × List (Call α)).2.1,
       setupCalls env win
         ++ (compileShader GL_VERTEX_SHADER vertexShaderSrc env.vs).2.2
         ++ (compileShader GL_FRAGMENT_SHADER fragmentShaderSrc env.fs).2.2
         ++ (linkProgram env.vs.name env.fs.name env.program).2.2
         ++ [.glDeleteShader env.vs.name, .glDeleteShader env.fs.name]⟩ := by
  simp only [main, compileShader, linkProgram, hI, hw, hg, hv, hf, hp]
  simp [setupCalls, sizeofFloat]

end Failures

section LoopLemmas

variable {α : Type}

theorem main_cases (env : Env α) :
    env.glfwInit = false
      ∨ (env.glfwInit = true ∧ env.window = none)
      ∨ (∃ win, env.glfwInit = true ∧ env.window = some win ∧ env.gladLoad = false)
      ∨ (∃ win, env.glfwInit = true ∧ env.window = some win ∧ env.gladLoad = true
          ∧ (env.vs.status = false ∨ env.fs.status = false))
      ∨ (∃ win, env.glfwInit = true ∧ env.window = some win ∧ env.gladLoad = true
          ∧ env.vs.status = true ∧ env.fs.status = true ∧ env.program.status = false)
      ∨ (∃ win, startupOk env = true ∧ env.window = some win) := by
  cases h1 : env.glfwInit <;> cases h2 : env.window <;> cases h3 : env.gladLoad <;>
    cases h4 : env.vs.status <;> cases h5 : env.fs.status <;> cases h6 : env.program.status <;>
    simp [startupOk, h1, h2, h3, h4, h5, h6]

theorem frame_calls [Field α] (M : CMath α) (win program VAO : Nat) (uMVP : Int)
    (inp : FrameInput α)
    (shouldClose : Bool) :
    (frame M win program VAO uMVP inp shouldClose).2 =
      [.glfwGetTime inp.now,
       .glfwGetKey win GLFW_KEY_ESCAPE inp.escape]
      ++ (if inp.escape then [.glfwSetWindowShouldClose win GLFW_TRUE] else [])
      ++ [.glClearColor (1 / 10) (1 / 10) (12 / 100) 1,
          .glClear [GL_COLOR_BUFFER_BIT, GL_DEPTH_BUFFER_BIT],
          .glUseProgram program,
          .glUniformMatrix4fv uMVP 1 GL_FALSE (glm.value_ptr (mvp M inp.now)),
          .glBindVertexArray VAO,
          .glDrawArrays GL_TRIANGLES 0 3,
          .glBindVertexArray 0,
          .glfwSwapBuffers win,
          .glfwPollEvents] := rfl

theorem mainLoop_forall [Field α] (M : CMath α) (env : Env α) (win program VAO : Nat)
    (uMVP : Int)
    (P : Call α → Prop) (hcheck : ∀ b, P (.glfwWindowShouldClose win b))
    (hframe : ∀ inp shouldClose, ∀ c ∈ (frame M win program VAO uMVP inp shouldClose).2, P c)
    (fuel i : Nat) (shouldClose : Bool) :
    ∀ c ∈ (mainLoop M env win program VAO uMVP fuel i shouldClose).2, P c := by
  induction fuel generalizing i shouldClose with
  | zero => simp [mainLoop]
  | succ n ih =>
    cases shouldClose with
    | true => simpa [mainLoop] using hcheck true
    | false =>
      intro c hc
      simp only [mainLoop, Bool.false_eq_true, if_false, List.mem_cons, List.mem_append] at hc
      rcases hc with rfl | hc | hc
      · exact hcheck false
      · exact hframe _ _ c hc
      · exact ih _ _ c hc

theorem frame_countP_isLoopEntry [Field α] (M : CMath α) (win program VAO : Nat) (uMVP : Int)
    (inp : FrameInput α) (shouldClose : Bool) :
    (frame M win program VAO uMVP inp shouldClose).2.countP isLoopEntry = 0 := by
  rw [frame_calls]
  cases inp.escape <;> simp [isLoopEntry]

theorem mainLoop_quiet [Field α] (M : CMath α) (env : Env α) (win program VAO : Nat) (uMVP : Int)
    (k fuel i : Nat) (h : ∀ j < k, closeSignal (env.frames (i + j)) = false) :
    ∃ pre, pre.countP isLoopEntry = k
      ∧ mainLoop M env win program VAO uMVP (k + fuel) i false
        = ((mainLoop M env win program VAO uMVP fuel (i + k) false).1,
           pre ++ (mainLoop M env win program VAO uMVP fuel (i + k) false).2) := by
  induction k generalizing i with
  | zero => exact ⟨[], by simp⟩
  | succ k ih =>
    have h0 : closeSignal (env.frames i) = false := by simpa using h 0 (by omega)
    obtain ⟨pre, hpre, hrun⟩ := ih (i + 1) (fun j hj => by
      have := h (j + 1) (by omega)
      rwa [show i + (j + 1) = i + 1 + j by omega] at this)
    refine ⟨.glfwWindowShouldClose win false
      :: ((frame M win program VAO uMVP (env.frames i) false).2 ++ pre), ?_, ?_⟩
    · simp [List.countP_cons, List.countP_append, frame_countP_isLoopEntry, hpre, isLoopEntry]
    · rw [show k + 1 + fuel = (k + fuel) + 1 by omega]
      simp only [mainLoop, Bool.false_eq_true, if_false, frame_flag, h0, hrun]
      rw [show i + 1 + k = i + (k + 1) by omega]
      simp

theorem mainLoop_last [Field α] (M : CMath α) (env : Env α) (win program VAO : Nat) (uMVP : Int)
    (fuel i : Nat) (h : closeSignal (env.frames i) = true) :
    mainLoop M env win program VAO uMVP (fuel + 2) i false
      = (true, .glfwWindowShouldClose win false
          :: ((frame M win program VAO uMVP (env.frames i) false).2
              ++ [.glfwWindowShouldClose win true])) := by
  simp [mainLoop, frame_flag, h]

theorem main_of_not_startupOk [Field α] (M : CMath α) (env : Env α) (fuel : Nat)
    (h : startupOk env = false) :
    (main M env fuel).exit = some (-1)
      ∧ ∀ c ∈ (main M env fuel).calls, isLoopCheck c = false ∧ drawCall c = none := by
  rcases main_cases env with hI | ⟨hI, hw⟩ | ⟨win, hI, hw, hg⟩ | ⟨win, hI, hw, hg, hc⟩
      | ⟨win, hI, hw, hg, hv, hf, hp⟩ | ⟨win, hok, -⟩
  · rw [main_of_initFail M env fuel hI]
    simp [isLoopCheck, drawCall]
  · rw [main_of_windowFail M env fuel hI hw]
    simp [isLoopCheck, drawCall]
  · rw [main_of_loaderFail M env fuel win hI hw hg]
    simp [isLoopCheck, drawCall]
  · rw [main_of_compileFail M env fuel win hI hw hg hc]
    refine ⟨rfl, fun c hc' => ?_⟩
    simp only [List.mem_append] at hc'
    rcases hc' with (hc' | hc') | hc'
    · exact setupCalls_calls env win c hc'
    · exact ⟨(compileShader_calls _ _ _ c hc').1, (compileShader_calls _ _ _ c hc').2.1⟩
    · exact ⟨(compileShader_calls _ _ _ c hc').1, (compileShader_calls _ _ _ c hc').2.1⟩
  · rw [main_of_linkFail M env fuel win hI hw hg hv hf hp]
    refine ⟨rfl, fun c hc' => ?_⟩
    simp only [List.mem_append, List.mem_cons, List.mem_singleton, List.not_mem_nil,
      or_false] at hc'
    rcases hc' with (((hc' | hc') | hc') | hc') | rfl | rfl
    · exact setupCalls_calls env win c hc'
    · exact ⟨(compileShader_calls _ _ _ c hc').1, (compileShader_calls _ _ _ c hc').2.1⟩
    · exact ⟨(compileShader_calls _ _ _ c hc').1, (compileShader_calls _ _ _ c hc').2.1⟩
    · exact linkProgram_calls _ _ _ c hc'
    · exact ⟨rfl, rfl⟩
    · exact ⟨rfl, rfl⟩
  · rw [hok] at h; cases h

theorem main_exit_of_startupOk [Field α] (M : CMath α) (env : Env α) (fuel : Nat)
    (h : startupOk env = true) :
    ((main M env fuel).exit = some 0
        ↔ ∃ k, k + 2 ≤ fuel ∧ closeSignal (env.frames k) = true)
      ∧ ((main M env fuel).exit = none
        ↔ ¬ ∃ k, k + 2 ≤ fuel ∧ closeSignal (env.frames k) = true) := by
  obtain ⟨win, hw⟩ : ∃ win, env.window = some win := by
    have := ((startupOk_iff env).1 h).2.1
    cases hw : env.window with
    | none => simp [hw] at this
    | some w => exact ⟨w, rfl⟩
  have hd := mainLoop_done_iff M env win env.program.name env.VAO env.uMVP fuel 0 false
  simp only [Bool.false_eq_true, false_and, false_or, true_and, Nat.zero_add] at hd
  rw [main_of_startupOk M env fuel win h hw, ← hd]
  cases mainLoop M env win env.program.name env.VAO env.uMVP fuel 0 false with
  | mk done calls => cases done <;> simp

end LoopLemmas

/-! ## The transform (claims C1, C2, C9, C10) -/

/-- C1: in every loop iteration, whatever the key and close inputs, the one
uniform upload goes to location `uMVP` with count 1 and the uploaded matrix is
perspective(45 degrees, 800/600, 0.1, 10) * translate(0, 0, -2) *
rotateY(t * 30 degrees), over the reals, the factors being the reference
OpenGL matrices multiplied in this order. -/
theorem C1_uploaded_matrix (t : ℝ) (escape closeRequested shouldClose : Bool)
    (win program VAO : Nat) (uMVP : Int) :
    (frame ⟨Real.cos, Real.sin, Real.tan, Real.sqrt, Real.pi⟩ win program VAO uMVP
        ⟨t, escape, closeRequested⟩ shouldClose).2.filterMap uniformUpload
      = [(uMVP, 1,
          stdPerspective ⟨Real.cos, Real.sin, Real.tan, Real.sqrt, Real.pi⟩
              (degrees ⟨Real.cos, Real.sin, Real.tan, Real.sqrt, Real.pi⟩ 45)
              (800 / 600) (1 / 10) 10
            * stdTranslate 0 0 (-2)
            * stdRotateY ⟨Real.cos, Real.sin, Real.tan, Real.sqrt, Real.pi⟩
                (t * degrees ⟨Real.cos, Real.sin, Real.tan, Real.sqrt, Real.pi⟩ 30))] := by
  rw [← model_toMatrix _ Real.sqrt_one, ← view_toMatrix,
    ← proj_toMatrix _ Real.tan_eq_sin_div_cos, ← toMatrix_mul, ← toMatrix_mul,
    ← uniformMatrix_value_ptr]
  cases escape <;> rfl

/-- C2: at `t = 0` the model matrix of the per-frame update is `mat4(1)`, the
identity, and `proj * view * model` is `proj * view`. -/
theorem C2_model_at_zero :
    model ⟨Real.cos, Real.sin, Real.tan, Real.sqrt, Real.pi⟩ 0 = glm.mat4.diag 1
      ∧ (model ⟨Real.cos, Real.sin, Real.tan, Real.sqrt, Real.pi⟩ 0).toMatrix = 1
      ∧ mvp ⟨Real.cos, Real.sin, Real.tan, Real.sqrt, Real.pi⟩ 0
          = (proj ⟨Real.cos, Real.sin, Real.tan, Real.sqrt, Real.pi⟩).mul view := by
  have h : model ⟨Real.cos, Real.sin, Real.tan, Real.sqrt, Real.pi⟩ 0 = glm.mat4.diag 1 := by
    rw [model_eq _ Real.sqrt_one]
    simp [glm.mat4.diag]
  refine ⟨h, ?_, ?_⟩
  · rw [h]
    ext i j
    fin_cases i <;> fin_cases j <;>
      simp [glm.mat4.toMatrix, glm.mat4.diag, Matrix.vecHead, Matrix.vecTail]
  · rw [mvp, h]
    simp [glm.mat4.mul, glm.mat4.mulVec, glm.mat4.diag, glm.vec4.add, glm.vec4.scale]

/-- C9: the model matrix is the rotation about the Y axis by `t * 30 degrees`;
it is additive in the clock reading, `model (s + t) = model s * model t`, and
has period 12, `model (t + 12) = model t`. -/
theorem C9_model_rotation (s t : ℝ) :
    (model ⟨Real.cos, Real.sin, Real.tan, Real.sqrt, Real.pi⟩ t).toMatrix
        = stdRotateY ⟨Real.cos, Real.sin, Real.tan, Real.sqrt, Real.pi⟩
            (t * (30 * Real.pi / 180))
      ∧ model ⟨Real.cos, Real.sin, Real.tan, Real.sqrt, Real.pi⟩ (s + t)
        = (model ⟨Real.cos, Real.sin, Real.tan, Real.sqrt, Real.pi⟩ s).mul
            (model ⟨Real.cos, Real.sin, Real.tan, Real.sqrt, Real.pi⟩ t)
      ∧ model ⟨Real.cos, Real.sin, Real.tan, Real.sqrt, Real.pi⟩ (t + 12)
        = model ⟨Real.cos, Real.sin, Real.tan, Real.sqrt, Real.pi⟩ t := by
  refine ⟨model_toMatrix _ Real.sqrt_one t, ?_, ?_⟩
  · rw [model_eq _ Real.sqrt_one, model_eq _ Real.sqrt_one, model_eq _ Real.sqrt_one, add_mul]
    simp only [Real.cos_add, Real.sin_add, glm.mat4.mul, glm.mat4.mulVec, glm.vec4.add,
      glm.vec4.scale]
    congr 1 <;> congr 1 <;> ring
  · have h : (t + 12) * glm.radians ⟨Real.cos, Real.sin, Real.tan, Real.sqrt, Real.pi⟩ 30
        = t * glm.radians ⟨Real.cos, Real.sin, Real.tan, Real.sqrt, Real.pi⟩ 30
          + 2 * Real.pi := by
      simp only [glm.radians]; ring
    rw [model_eq _ Real.sqrt_one, model_eq _ Real.sqrt_one, h]
    simp only [Real.cos_add_two_pi, Real.sin_add_two_pi]

/-- C10: for every time `t` and each of the three vertices, the clip-space `w`
that the vertex shader computes under `mvp t` is the vertex's distance in
front of the camera (minus its eye-space `z` under `view * model t`), and it
lies strictly between the near plane 0.1 and the far plane 10. -/
theorem C10_w_between_planes (t : ℝ) (i : Fin 3) :
    (vertexShaderMain (mvp ⟨Real.cos, Real.sin, Real.tan, Real.sqrt, Real.pi⟩ t)
        (attribute0 vertices i)).w
        = -(vertexShaderMain
              ((view : glm.mat4 ℝ).mul
                (model ⟨Real.cos, Real.sin, Real.tan, Real.sqrt, Real.pi⟩ t))
              (attribute0 vertices i)).z
      ∧ 1 / 10 < (vertexShaderMain (mvp ⟨Real.cos, Real.sin, Real.tan, Real.sqrt, Real.pi⟩ t)
          (attribute0 vertices i)).w
      ∧ (vertexShaderMain (mvp ⟨Real.cos, Real.sin, Real.tan, Real.sqrt, Real.pi⟩ t)
          (attribute0 vertices i)).w < 10 := by
  have hs := Real.neg_one_le_sin
    (t * glm.radians ⟨Real.cos, Real.sin, Real.tan, Real.sqrt, Real.pi⟩ 30)
  have hs1 := Real.sin_le_one
    (t * glm.radians ⟨Real.cos, Real.sin, Real.tan, Real.sqrt, Real.pi⟩ 30)
  have hc := Real.neg_one_le_cos
    (t * glm.radians ⟨Real.cos, Real.sin, Real.tan, Real.sqrt, Real.pi⟩ 30)
  have hc1 := Real.cos_le_one
    (t * glm.radians ⟨Real.cos, Real.sin, Real.tan, Real.sqrt, Real.pi⟩ 30)
  rw [clip_w_eq _ Real.sqrt_one, eye_z_eq _ Real.sqrt_one]
  refine ⟨by ring, ?_, ?_⟩ <;> fin_cases i <;> norm_num [attribute0, vertices] <;> linarith

/-! ## Startup failures and exit codes (claims C4, C7, C8) -/

section ExitClaims

variable {α : Type}

/-- C4: in a run that reaches shader compilation (GLFW initialised, window
created, function pointers loaded), if the vertex shader or the fragment
shader fails to compile, or the program fails to link, then `main` returns
-1, the text on `std::cerr` is not empty and contains the info log of each
failing step that was attempted, and the run holds no evaluation of the loop
condition and no draw call. -/
theorem C4_shader_failure [Field α] (M : CMath α) (env : Env α) (fuel win : Nat)
    (hI : env.glfwInit = true) (hw : env.window = some win) (hg : env.gladLoad = true)
    (hfail : env.vs.status = false ∨ env.fs.status = false ∨ env.program.status = false) :
    (main M env fuel).exit = some (-1)
      ∧ (main M env fuel).exit ≠ some 0
      ∧ (main M env fuel).cerr ≠ []
      ∧ (env.vs.status = false → env.vs.infoLog <:+: (main M env fuel).cerr)
      ∧ (env.fs.status = false → env.fs.infoLog <:+: (main M env fuel).cerr)
      ∧ (env.vs.status = true → env.fs.status = true →
          env.program.infoLog <:+: (main M env fuel).cerr)
      ∧ ∀ c ∈ (main M env fuel).calls, isLoopCheck c = false ∧ drawCall c = none := by
  have hno : startupOk env = false := by
    rcases hfail with h | h | h <;> simp [startupOk, h]
  have hrun := main_of_not_startupOk M env fuel hno
  have hcerr : (main M env fuel).cerr ≠ []
      ∧ (env.vs.status = false → env.vs.infoLog <:+: (main M env fuel).cerr)
      ∧ (env.fs.status = false → env.fs.infoLog <:+: (main M env fuel).cerr)
      ∧ (env.vs.status = true → env.fs.status = true →
          env.program.infoLog <:+: (main M env fuel).cerr) := by
    by_cases hc : env.vs.status = false ∨ env.fs.status = false
    · rw [main_of_compileFail M env fuel win hI hw hg hc]
      refine ⟨?_, fun h => within_append_left _ (compileShader_cerr _ _ _ h).2,
        fun h => within_append_right _ (compileShader_cerr _ _ _ h).2, fun hv hf => ?_⟩
      · rcases hc with h | h
        · exact List.append_ne_nil_of_left_ne_nil (compileShader_cerr _ _ _ h).1 _
        · exact List.append_ne_nil_of_right_ne_nil _ (compileShader_cerr _ _ _ h).1
      · rcases hc with h | h
        · rw [hv] at h; cases h
        · rw [hf] at h; cases h
    · have hv : env.vs.status = true := by
        cases h : env.vs.status
        · exact absurd (Or.inl h) hc
        · rfl
      have hf : env.fs.status = true := by
        cases h : env.fs.status
        · exact absurd (Or.inr h) hc
        · rfl
      have hp : env.program.status = false := by
        rcases hfail with h | h | h
        · rw [hv] at h; cases h
        · rw [hf] at h; cases h
        · exact h
      rw [main_of_linkFail M env fuel win hI hw hg hv hf hp]
      refine ⟨(linkProgram_cerr _ _ _ hp).1, fun h => ?_, fun h => ?_,
        fun _ _ => (linkProgram_cerr _ _ _ hp).2⟩
      · rw [hv] at h; cases h
      · rw [hf] at h; cases h
  exact ⟨hrun.1, by rw [hrun.1]; simp, hcerr.1, hcerr.2.1, hcerr.2.2.1, hcerr.2.2.2, hrun.2⟩

/-- Witness of C4: the fragment shader of `envCompileFail` does not compile. -/
theorem C4_shader_failure_witness :
    (main ratMath envCompileFail 5).exit = some (-1)
      ∧ (main ratMath envCompileFail 5).exit ≠ some 0
      ∧ (main ratMath envCompileFail 5).cerr ≠ []
      ∧ (envCompileFail.vs.status = false →
          envCompileFail.vs.infoLog <:+: (main ratMath envCompileFail 5).cerr)
      ∧ (envCompileFail.fs.status = false →
          envCompileFail.fs.infoLog <:+: (main ratMath envCompileFail 5).cerr)
      ∧ (envCompileFail.vs.status = true → envCompileFail.fs.status = true →
          envCompileFail.program.infoLog <:+: (main ratMath envCompileFail 5).cerr)
      ∧ ∀ c ∈ (main ratMath envCompileFail 5).calls,
          isLoopCheck c = false ∧ drawCall c = none :=
  C4_shader_failure ratMath envCompileFail 5 7 rfl rfl rfl (Or.inr (Or.inl rfl))

/-- C7: `main` returns 0 exactly when every startup step succeeded and the loop
ended on a close signal; each startup failure (GLFW initialisation, window
creation, function-pointer loading, a shader compile, the program link) makes
it return -1; and a run that returns a nonzero code holds no evaluation of the
loop condition, that is, it never began the loop. -/
theorem C7_exit_code [Field α] (M : CMath α) (env : Env α) (fuel : Nat) :
    ((main M env fuel).exit = some 0
        ↔ startupOk env = true ∧ ∃ k, k + 2 ≤ fuel ∧ closeSignal (env.frames k) = true)
      ∧ (env.glfwInit = false → (main M env fuel).exit = some (-1))
      ∧ (env.window = none → (main M env fuel).exit = some (-1))
      ∧ (env.gladLoad = false → (main M env fuel).exit = some (-1))
      ∧ (env.vs.status = false ∨ env.fs.status = false → (main M env fuel).exit = some (-1))
      ∧ (env.program.status = false → (main M env fuel).exit = some (-1))
      ∧ (∀ code, (main M env fuel).exit = some code → code ≠ 0 →
          ∀ c ∈ (main M env fuel).calls, isLoopCheck c = false) := by
  refine ⟨?_, fun h => ?_, fun h => ?_, fun h => ?_, fun h => ?_, fun h => ?_, ?_⟩
  · cases hok : startupOk env with
    | true => simpa using (main_exit_of_startupOk M env fuel hok).1
    | false => simp [(main_of_not_startupOk M env fuel hok).1]
  · exact (main_of_not_startupOk M env fuel (by simp [startupOk, h])).1
  · exact (main_of_not_startupOk M env fuel (by simp [startupOk, h])).1
  · exact (main_of_not_startupOk M env fuel (by simp [startupOk, h])).1
  · exact (main_of_not_startupOk M env fuel (by rcases h with h | h <;> simp [startupOk, h])).1
  · exact (main_of_not_startupOk M env fuel (by simp [startupOk, h])).1
  · intro code hcode hne c hc
    cases hok : startupOk env with
    | false => exact ((main_of_not_startupOk M env fuel hok).2 c hc).1
    | true =>
      exfalso
      by_cases hk : ∃ k, k + 2 ≤ fuel ∧ closeSignal (env.frames k) = true
      · rw [(main_exit_of_startupOk M env fuel hok).1.2 hk] at hcode
        exact hne (by injection hcode with h; exact h.symm)
      · rw [(main_exit_of_startupOk M env fuel hok).2.2 hk] at hcode
        cases hcode

/-- C8, the run of `envLoaderFail`, where GLAD fails after the window was
created: `main` returns -1 having created the context and the window and
released neither. The same holds when a shader fails to compile
(`envCompileFail`) and when the program fails to link (`envLinkFail`), where
the vertex array and the buffer are not released either. -/
theorem C8_window_not_destroyed :
    ((main ratMath envLoaderFail 5).exit = some (-1)
        ∧ (main ratMath envLoaderFail 5).calls.filterMap created = [.context, .window 7]
        ∧ (main ratMath envLoaderFail 5).calls.filterMap released = [])
      ∧ ((main ratMath envCompileFail 5).exit = some (-1)
        ∧ (main ratMath envCompileFail 5).calls.filterMap created
            = [.context, .window 7, .vertexArray 1, .buffer 2]
        ∧ (main ratMath envCompileFail 5).calls.filterMap released = [])
      ∧ ((main ratMath envLinkFail 5).exit = some (-1)
        ∧ (main ratMath envLinkFail 5).calls.filterMap created
            = [.context, .window 7, .vertexArray 1, .buffer 2, .program 3]
        ∧ (main ratMath envLinkFail 5).calls.filterMap released = [.program 3]) := by
  refine ⟨⟨rfl, rfl, rfl⟩, ⟨rfl, rfl, rfl⟩, ⟨rfl, rfl, rfl⟩⟩


/-- Witness of C7: `envEscape` starts up and closes in iteration 2, so `main` returns 0. -/
theorem C7_exit_code_witness : (main ratMath envEscape 4).exit = some 0 :=
  (C7_exit_code ratMath envEscape 4).1.2 ⟨rfl, 2, by decide, rfl⟩

end ExitClaims

/-! ## The loop and shutdown (claims C5, C6) -/

section LoopClaims

variable {α : Type}

theorem filterMap_nil_of_forall {β : Type} (f : Call α → Option β) (l : List (Call α))
    (h : ∀ c ∈ l, f c = none) : l.filterMap f = [] := by
  induction l with
  | nil => rfl
  | cons a l ih =>
    rw [List.filterMap_cons, h a (List.mem_cons_self a l)]
    exact ih fun c hc => h c (List.mem_cons_of_mem a hc)

theorem frame_inert [Field α] (M : CMath α) (win program VAO : Nat) (uMVP : Int)
    (inp : FrameInput α)
    (shouldClose : Bool) :
    ∀ c ∈ (frame M win program VAO uMVP inp shouldClose).2,
      created c = none ∧ released c = none := by
  rw [frame_calls]
  cases inp.escape <;> simp [created, released]

theorem mainLoop_inert [Field α] (M : CMath α) (env : Env α) (win program VAO : Nat) (uMVP : Int)
    (fuel i : Nat) (shouldClose : Bool) :
    ∀ c ∈ (mainLoop M env win program VAO uMVP fuel i shouldClose).2,
      created c = none ∧ released c = none :=
  mainLoop_forall M env win program VAO uMVP _ (fun _ => ⟨rfl, rfl⟩)
    (frame_inert M win program VAO uMVP) fuel i shouldClose

theorem mainLoop_ends_with_check [Field α] (M : CMath α) (env : Env α) (win program VAO : Nat)
    (uMVP : Int) (fuel i : Nat) (shouldClose : Bool)
    (h : (mainLoop M env win program VAO uMVP fuel i shouldClose).1 = true) :
    ∃ pre, (mainLoop M env win program VAO uMVP fuel i shouldClose).2
      = pre ++ [.glfwWindowShouldClose win true] := by
  induction fuel generalizing i shouldClose with
  | zero => simp [mainLoop] at h
  | succ n ih =>
    cases shouldClose with
    | true => exact ⟨[], by simp [mainLoop]⟩
    | false =>
      simp only [mainLoop, Bool.false_eq_true, if_false] at h ⊢
      obtain ⟨pre, hpre⟩ := ih _ _ h
      exact ⟨.glfwWindowShouldClose win false
        :: ((frame M win program VAO uMVP (env.frames i) false).2 ++ pre), by simp [hpre]⟩

/-- C5: if iteration `k` is reached (no close signal in the iterations before
it) and observes Escape pressed, then that iteration sets the close flag and
still performs its clear, uniform upload, draw, buffer swap and event poll;
the next evaluation of the loop condition ends the loop and shutdown follows.
Exactly `k + 1` iterations begin in the whole run, and `main` returns 0. -/
theorem C5_escape_ends_loop [Field α] (M : CMath α) (env : Env α) (fuel k win : Nat)
    (hok : startupOk env = true) (hw : env.window = some win)
    (hreach : ∀ j < k, closeSignal (env.frames j) = false)
    (hesc : (env.frames k).escape = true) (hfuel : k + 2 ≤ fuel) :
    ∃ pre,
      (main M env fuel).calls =
        pre ++
          [.glfwWindowShouldClose win false,
           .glfwGetTime (env.frames k).now,
           .glfwGetKey win GLFW_KEY_ESCAPE true,
           .glfwSetWindowShouldClose win GLFW_TRUE,
           .glClearColor (1 / 10) (1 / 10) (12 / 100) 1,
           .glClear [GL_COLOR_BUFFER_BIT, GL_DEPTH_BUFFER_BIT],
           .glUseProgram env.program.name,
           .glUniformMatrix4fv env.uMVP 1 GL_FALSE (glm.value_ptr (mvp M (env.frames k).now)),
           .glBindVertexArray env.VAO,
           .glDrawArrays GL_TRIANGLES 0 3,
           .glBindVertexArray 0,
           .glfwSwapBuffers win,
           .glfwPollEvents,
           .glfwWindowShouldClose win true]
          ++ shutdownCalls env win
      ∧ pre.countP isLoopEntry = k
      ∧ (main M env fuel).calls.countP isLoopEntry = k + 1
      ∧ (main M env fuel).exit = some 0 := by
  obtain ⟨m, rfl⟩ : ∃ m, fuel = k + (m + 2) := ⟨fuel - k - 2, by omega⟩
  have hsig : closeSignal (env.frames (0 + k)) = true := by
    simp [closeSignal, hesc]
  obtain ⟨pre, hpre, hrun⟩ := mainLoop_quiet M env win env.program.name env.VAO env.uMVP k
    (m + 2) 0 (fun j hj => by simpa using hreach j hj)
  rw [mainLoop_last M env win env.program.name env.VAO env.uMVP m (0 + k) hsig,
    frame_calls] at hrun
  simp only [Nat.zero_add, hesc, if_true] at hrun
  have hstart : (startupCalls env win).countP isLoopEntry = 0 := by
    simp [startupCalls, setupCalls, isLoopEntry]
  have hshut : (shutdownCalls env win).countP isLoopEntry = 0 := by
    simp [shutdownCalls, isLoopEntry]
  rw [main_of_startupOk M env (k + (m + 2)) win hok hw, hrun]
  refine ⟨startupCalls env win ++ pre, by simp, by simp [hstart, hpre], ?_, by simp⟩
  simp [List.countP_append, List.countP_cons, hstart, hshut, hpre, isLoopEntry]

/-- Witness of C5: in `envEscape` Escape is pressed in iteration 2. -/
theorem C5_escape_ends_loop_witness :
    ∃ pre,
      (main ratMath envEscape 4).calls =
        pre ++
          [.glfwWindowShouldClose 7 false,
           .glfwGetTime (envEscape.frames 2).now,
           .glfwGetKey 7 GLFW_KEY_ESCAPE true,
           .glfwSetWindowShouldClose 7 GLFW_TRUE,
           .glClearColor (1 / 10) (1 / 10) (12 / 100) 1,
           .glClear [GL_COLOR_BUFFER_BIT, GL_DEPTH_BUFFER_BIT],
           .glUseProgram envEscape.program.name,
           .glUniformMatrix4fv envEscape.uMVP 1 GL_FALSE
             (glm.value_ptr (mvp ratMath (envEscape.frames 2).now)),
           .glBindVertexArray envEscape.VAO,
           .glDrawArrays GL_TRIANGLES 0 3,
           .glBindVertexArray 0,
           .glfwSwapBuffers 7,
           .glfwPollEvents,
           .glfwWindowShouldClose 7 true]
          ++ shutdownCalls envEscape 7
      ∧ pre.countP isLoopEntry = 2
      ∧ (main ratMath envEscape 4).calls.countP isLoopEntry = 2 + 1
      ∧ (main ratMath envEscape 4).exit = some 0 :=
  C5_escape_ends_loop ratMath envEscape 4 2 7 rfl rfl (by decide) rfl (by decide)

/-- C6: once the loop has ended, the run finishes with the five release calls
program, buffer, vertex array, window, context, in this order, right after the
evaluation of the loop condition that ended the loop; these are all the
releases of the run, each resource being released once, and their sequence is
the reverse of the sequence in which the run created the five resources. -/
theorem C6_release_order [Field α] (M : CMath α) (env : Env α) (fuel k win : Nat)
    (hok : startupOk env = true) (hw : env.window = some win)
    (hsig : closeSignal (env.frames k) = true) (hfuel : k + 2 ≤ fuel) :
    (∃ pre, (main M env fuel).calls =
        pre ++
          [.glfwWindowShouldClose win true,
           .glDeleteProgram env.program.name,
           .glDeleteBuffers 1 env.VBO,
           .glDeleteVertexArrays 1 env.VAO,
           .glfwDestroyWindow win,
           .glfwTerminate])
      ∧ (main M env fuel).calls.filterMap released
          = [.program env.program.name, .buffer env.VBO, .vertexArray env.VAO, .window win,
             .context]
      ∧ (main M env fuel).calls.filterMap created
          = [.context, .window win, .vertexArray env.VAO, .buffer env.VBO,
             .program env.program.name]
      ∧ (main M env fuel).calls.filterMap released
          = ((main M env fuel).calls.filterMap created).reverse := by
  have hdone : (mainLoop M env win env.program.name env.VAO env.uMVP fuel 0 false).1 = true :=
    (mainLoop_done_iff M env win env.program.name env.VAO env.uMVP fuel 0 false).2
      (Or.inr ⟨rfl, k, hfuel, by simpa using hsig⟩)
  obtain ⟨pre, hpre⟩ := mainLoop_ends_with_check M env win env.program.name env.VAO env.uMVP
    fuel 0 false hdone
  have hin := mainLoop_inert M env win env.program.name env.VAO env.uMVP fuel 0 false
  have hrel : (main M env fuel).calls.filterMap released
      = [.program env.program.name, .buffer env.VBO, .vertexArray env.VAO, .window win,
         .context] := by
    rw [main_of_startupOk M env fuel win hok hw, hdone]
    simp only [if_true, List.filterMap_append,
      filterMap_nil_of_forall released _ fun c hc => (hin c hc).2]
    simp [startupCalls, setupCalls, shutdownCalls, released]
  have hcre : (main M env fuel).calls.filterMap created
      = [.context, .window win, .vertexArray env.VAO, .buffer env.VBO,
         .program env.program.name] := by
    rw [main_of_startupOk M env fuel win hok hw, hdone]
    simp only [if_true, List.filterMap_append,
      filterMap_nil_of_forall created _ fun c hc => (hin c hc).1]
    simp [startupCalls, setupCalls, shutdownCalls, created]
  refine ⟨⟨startupCalls env win ++ pre, ?_⟩, hrel, hcre, ?_⟩
  · rw [main_of_startupOk M env fuel win hok hw, hdone, hpre]
    simp [shutdownCalls]
  · rw [hrel, hcre]; rfl

/-- Witness of C6: in `envEscape` the loop ends after iteration 2. -/
theorem C6_release_order_witness :
    (∃ pre, (main ratMath envEscape 4).calls =
        pre ++
          [.glfwWindowShouldClose 7 true,
           .glDeleteProgram envEscape.program.name,
           .glDeleteBuffers 1 envEscape.VBO,
           .glDeleteVertexArrays 1 envEscape.VAO,
           .glfwDestroyWindow 7,
           .glfwTerminate])
      ∧ (main ratMath envEscape 4).calls.filterMap released
          = [.program envEscape.program.name, .buffer envEscape.VBO,
             .vertexArray envEscape.VAO, .window 7, .context]
      ∧ (main ratMath envEscape 4).calls.filterMap created
          = [.context, .window 7, .vertexArray envEscape.VAO, .buffer envEscape.VBO,
             .program envEscape.program.name]
      ∧ (main ratMath envEscape 4).calls.filterMap released
          = ((main ratMath envEscape 4).calls.filterMap created).reverse :=
  C6_release_order ratMath envEscape 4 2 7 rfl rfl rfl (by decide)

end LoopClaims

/-! ## The vertex buffer (claim C3) -/

section BufferClaims

variable {α : Type}

theorem foldl_step_filter (p : List (Call α)) (s : GLBuffers α) :
    p.foldl GLBuffers.step s = (p.filter bufferCall).foldl GLBuffers.step s := by
  induction p generalizing s with
  | nil => rfl
  | cons c p ih =>
    cases c <;> simp [List.filter_cons, bufferCall, GLBuffers.step, ih]

theorem frame_buffer_inert [Field α] (M : CMath α) (win program VAO : Nat) (uMVP : Int)
    (inp : FrameInput α) (shouldClose : Bool) :
    ∀ c ∈ (frame M win program VAO uMVP inp shouldClose).2,
      bufferCall c = false ∧ bufferUpload c = none
        ∧ ∀ d, drawCall c = some d → d = (GL_TRIANGLES, 0, 3) := by
  rw [frame_calls]
  cases inp.escape <;> simp [bufferCall, bufferUpload, drawCall]

theorem mainLoop_buffer_inert [Field α] (M : CMath α) (env : Env α) (win program VAO : Nat)
    (uMVP : Int)
    (fuel i : Nat) (shouldClose : Bool) :
    ∀ c ∈ (mainLoop M env win program VAO uMVP fuel i shouldClose).2,
      bufferCall c = false ∧ bufferUpload c = none
        ∧ ∀ d, drawCall c = some d → d = (GL_TRIANGLES, 0, 3) :=
  mainLoop_forall M env win program VAO uMVP _
    (fun _ => ⟨rfl, rfl, fun _ h => by simp [drawCall] at h⟩)
    (frame_buffer_inert M win program VAO uMVP) fuel i shouldClose

theorem compileShader_buffer_inert (type : Const) (source : String) (d : Build) :
    ∀ c ∈ (compileShader type source d : Nat × List Char × List (Call α)).2.2,
      bufferCall c = false ∧ bufferUpload c = none := by
  cases h : d.status <;> simp [compileShader, h, bufferCall, bufferUpload]

theorem linkProgram_buffer_inert (vert frag : Nat) (d : Build) :
    ∀ c ∈ (linkProgram vert frag d : Nat × List Char × List (Call α)).2.2,
      bufferCall c = false ∧ bufferUpload c = none := by
  cases h : d.status <;> simp [linkProgram, h, bufferCall, bufferUpload]

theorem filter_nil_of_forall (f : Call α → Bool) (l : List (Call α))
    (h : ∀ c ∈ l, f c = false) : l.filter f = [] := by
  induction l with
  | nil => rfl
  | cons a l ih =>
    rw [List.filter_cons, h a (List.mem_cons_self a l)]
    exact ih fun c hc => h c (List.mem_cons_of_mem a hc)

/-- In every run, the calls that act on buffer objects are an initial part of:
bind the buffer, upload `vertices`, delete the buffer; and the uploads are an
initial part of the single upload of `vertices`. -/
theorem main_buffer_calls [Field α] (M : CMath α) (env : Env α) (fuel : Nat) :
    (main M env fuel).calls.filter bufferCall
        <+: [.glBindBuffer GL_ARRAY_BUFFER env.VBO,
             .glBufferData GL_ARRAY_BUFFER 36 vertices GL_STATIC_DRAW,
             .glDeleteBuffers 1 env.VBO]
      ∧ (main M env fuel).calls.filterMap bufferUpload
        <+: [(GL_ARRAY_BUFFER, 36, vertices, GL_STATIC_DRAW)] := by
  have hsetupF : ∀ win, (setupCalls env win).filter bufferCall
      = [.glBindBuffer GL_ARRAY_BUFFER env.VBO,
         .glBufferData GL_ARRAY_BUFFER 36 vertices GL_STATIC_DRAW] := by
    intro win; simp [setupCalls, bufferCall]
  have hsetupU : ∀ win, (setupCalls env win).filterMap bufferUpload
      = [(GL_ARRAY_BUFFER, 36, vertices, GL_STATIC_DRAW)] := by
    intro win; simp [setupCalls, bufferUpload]
  rcases main_cases env with hI | ⟨hI, hw⟩ | ⟨win, hI, hw, hg⟩ | ⟨win, hI, hw, hg, hc⟩
      | ⟨win, hI, hw, hg, hv, hf, hp⟩ | ⟨win, hok, hw⟩
  · rw [main_of_initFail M env fuel hI]
    simp [bufferCall, bufferUpload]
  · rw [main_of_windowFail M env fuel hI hw]
    simp [bufferCall, bufferUpload]
  · rw [main_of_loaderFail M env fuel win hI hw hg]
    simp [bufferCall, bufferUpload]
  · rw [main_of_compileFail M env fuel win hI hw hg hc]
    simp only [List.filter_append, List.filterMap_append, hsetupF, hsetupU,
      filter_nil_of_forall bufferCall _ fun c hc => (compileShader_buffer_inert _ _ _ c hc).1,
      filterMap_nil_of_forall bufferUpload _
        fun c hc => (compileShader_buffer_inert _ _ _ c hc).2,
      List.append_nil]
    exact ⟨⟨[_], rfl⟩, List.prefix_refl _⟩
  · rw [main_of_linkFail M env fuel win hI hw hg hv hf hp]
    simp only [List.filter_append, List.filterMap_append, hsetupF, hsetupU,
      filter_nil_of_forall bufferCall _ fun c hc => (compileShader_buffer_inert _ _ _ c hc).1,
      filterMap_nil_of_forall bufferUpload _
        fun c hc => (compileShader_buffer_inert _ _ _ c hc).2,
      filter_nil_of_forall bufferCall _ fun c hc => (linkProgram_buffer_inert _ _ _ c hc).1,
      filterMap_nil_of_forall bufferUpload _
        fun c hc => (linkProgram_buffer_inert _ _ _ c hc).2,
      List.append_nil]
    simp [bufferCall, bufferUpload]
  · rw [main_of_startupOk M env fuel win hok hw]
    have hin := mainLoop_buffer_inert M env win env.program.name env.VAO env.uMVP fuel 0 false
    simp only [List.filter_append, List.filterMap_append, startupCalls, hsetupF, hsetupU,
      filter_nil_of_forall bufferCall _ fun c hc => (hin c hc).1,
      filterMap_nil_of_forall bufferUpload _ fun c hc => (hin c hc).2.1,
      List.append_nil]
    cases (mainLoop M env win env.program.name env.VAO env.uMVP fuel 0 false).1
    · simp [bufferCall, bufferUpload]
    · simp [bufferCall, bufferUpload, shutdownCalls]

theorem setupCalls_initial [Field α] (M : CMath α) (env : Env α) (fuel win : Nat)
    (hI : env.glfwInit = true) (hw : env.window = some win) (hg : env.gladLoad = true) :
    setupCalls env win <+: (main M env fuel).calls := by
  by_cases hc : env.vs.status = false ∨ env.fs.status = false
  · rw [main_of_compileFail M env fuel win hI hw hg hc]
    exact ⟨_, (List.append_assoc _ _ _).symm⟩
  · have hv : env.vs.status = true := by
      cases h : env.vs.status
      · exact absurd (Or.inl h) hc
      · rfl
    have hf : env.fs.status = true := by
      cases h : env.fs.status
      · exact absurd (Or.inr h) hc
      · rfl
    cases hp : env.program.status with
    | false =>
      rw [main_of_linkFail M env fuel win hI hw hg hv hf hp]
      simp only [List.append_assoc]
      exact List.prefix_append _ _
    | true =>
      rw [main_of_startupOk M env fuel win (by simp [startupOk, hI, hw, hg, hv, hf, hp]) hw]
      simp only [startupCalls, List.append_assoc]
      exact List.prefix_append _ _

theorem main_draw_calls [Field α] (M : CMath α) (env : Env α) (fuel : Nat) :
    ∀ c ∈ (main M env fuel).calls, ∀ d, drawCall c = some d → d = (GL_TRIANGLES, 0, 3) := by
  intro c hc d hd
  cases hok : startupOk env with
  | false =>
    rw [((main_of_not_startupOk M env fuel hok).2 c hc).2] at hd
    cases hd
  | true =>
    obtain ⟨win, hw⟩ : ∃ win, env.window = some win := by
      have := ((startupOk_iff env).1 hok).2.1
      cases hw : env.window with
      | none => simp [hw] at this
      | some w => exact ⟨w, rfl⟩
    rw [main_of_startupOk M env fuel win hok hw] at hc
    simp only [List.mem_append] at hc
    rcases hc with (hc | hc) | hc
    · exfalso
      revert hd
      simp only [startupCalls, setupCalls, List.mem_append, List.mem_cons, List.mem_singleton,
        List.not_mem_nil, or_false] at hc
      rcases hc with (h | h | h | h | h | h | h | h | h | h | h | h | h | h | h | h | h)
          | h | h | h | h | h | h | h | h | h | h | h | h | h | h | h | h | h <;>
        subst h <;> simp [drawCall]
    · exact (mainLoop_buffer_inert M env win env.program.name env.VAO env.uMVP fuel 0 false
        c hc).2.2 d hd
    · exfalso
      revert hd
      split at hc
      · simp only [shutdownCalls, List.mem_cons, List.mem_singleton, List.not_mem_nil,
          or_false] at hc
        rcases hc with h | h | h | h | h <;> subst h <;> simp [drawCall]
      · cases hc

/-- C3: the array `vertices` is the nine scalars of the points (0, 0.5, 0),
(0.5, -0.5, -0.5), (-0.5, -0.5, 0.5); a run that reaches the upload uploads
exactly this array, once, and no run uploads anything else; at every point of
a run after the upload and before the buffer is deleted at shutdown, so after
any number of loop iterations, the data store of the buffer is `vertices`; and
every draw call of a run is `glDrawArrays(GL_TRIANGLES, 0, 3)`. -/
theorem C3_vertex_buffer [Field α] (M : CMath α) (env : Env α) (fuel : Nat) :
    (vertices : List α).length = 9
      ∧ [attribute0 (vertices : List α) 0, attribute0 vertices 1, attribute0 vertices 2]
          = [⟨0, 1 / 2, 0⟩, ⟨1 / 2, -(1 / 2), -(1 / 2)⟩, ⟨-(1 / 2), -(1 / 2), 1 / 2⟩]
      ∧ (main M env fuel).calls.filterMap bufferUpload
          <+: [(GL_ARRAY_BUFFER, 9 * sizeofFloat, vertices, GL_STATIC_DRAW)]
      ∧ (env.glfwInit = true → env.window.isSome = true → env.gladLoad = true →
          (main M env fuel).calls.filterMap bufferUpload
            = [(GL_ARRAY_BUFFER, 9 * sizeofFloat, vertices, GL_STATIC_DRAW)])
      ∧ (∀ p, p <+: (main M env fuel).calls →
          (∃ target size data usage, Call.glBufferData target size data usage ∈ p) →
          (∀ n, Call.glDeleteBuffers n env.VBO ∉ p) →
          (glBuffers p).store env.VBO = some vertices)
      ∧ ∀ d ∈ (main M env fuel).calls.filterMap drawCall, d = (GL_TRIANGLES, 0, 3) := by
  refine ⟨rfl, rfl, (main_buffer_calls M env fuel).2, ?_, ?_, ?_⟩
  · intro hI hw hg
    obtain ⟨win, hw⟩ : ∃ win, env.window = some win := by
      cases h : env.window with
      | none => simp [h] at hw
      | some w => exact ⟨w, rfl⟩
    obtain ⟨rest, hrest⟩ := setupCalls_initial M env fuel win hI hw hg
    have hpre := (main_buffer_calls M env fuel).2
    rw [← hrest, List.filterMap_append] at hpre ⊢
    have hsetupU : (setupCalls env win).filterMap bufferUpload
        = [(GL_ARRAY_BUFFER, 9 * sizeofFloat, vertices, GL_STATIC_DRAW)] := by
      simp [setupCalls, bufferUpload, sizeofFloat]
    rw [hsetupU] at hpre ⊢
    have hlen := hpre.length_le
    simp only [List.length_append, List.length_singleton] at hlen
    rw [List.eq_nil_of_length_eq_zero (by omega : (rest.filterMap bufferUpload).length = 0)]
    rfl
  · intro p hp hup hdel
    have hq := (List.IsPrefix.filter bufferCall hp).trans (main_buffer_calls M env fuel).1
    obtain ⟨target, size, data, usage, hup⟩ := hup
    have hup' : Call.glBufferData target size data usage ∈ p.filter bufferCall :=
      List.mem_filter.2 ⟨hup, rfl⟩
    have hdel' : Call.glDeleteBuffers 1 env.VBO ∉ p.filter bufferCall :=
      fun h => hdel 1 (List.mem_filter.1 h).1
    rw [glBuffers, foldl_step_filter]
    rcases List.prefix_cons_iff.1 hq with h | ⟨t, h, ht⟩
    · rw [h] at hup'; cases hup'
    · rcases List.prefix_cons_iff.1 ht with h2 | ⟨t2, h2, ht2⟩
      · rw [h, h2] at hup'; simp at hup'
      · rcases List.prefix_cons_iff.1 ht2 with h3 | ⟨t3, h3, -⟩
        · rw [h, h2, h3]
          simp [GLBuffers.step]
        · rw [h, h2, h3] at hdel'
          simp at hdel'
  · intro d hd
    obtain ⟨c, hc, hcd⟩ := List.mem_filterMap.1 hd
    exact main_draw_calls M env fuel c hc d hcd

/-- Witness of C3: after three iterations of the run of `envEscape`, the loop
still running, the data store of the buffer is `vertices`. -/
theorem C3_vertex_buffer_witness :
    (main ratMath envEscape 3).exit = none
      ∧ (main ratMath envEscape 3).calls.countP isLoopEntry = 3
      ∧ (glBuffers (main ratMath envEscape 3).calls).store envEscape.VBO = some vertices :=
  ⟨rfl, rfl,
    (C3_vertex_buffer ratMath envEscape 3).2.2.2.2.1 _ (List.prefix_refl _)
      ⟨GL_ARRAY_BUFFER, 36, vertices, GL_STATIC_DRAW,
        (setupCalls_initial ratMath envEscape 3 7 rfl rfl rfl).subset (by simp [setupCalls])⟩
      (fun n h => by
        have hr : (main ratMath envEscape 3).calls.filterMap released = [] := rfl
        have : Resource.buffer envEscape.VBO
            ∈ (main ratMath envEscape 3).calls.filterMap released :=
          List.mem_filterMap.2 ⟨_, h, rfl⟩
        rw [hr] at this
        cases this)⟩

end BufferClaims


end Triangle3d
